import Mathlib

/-!
Shallow embedding of the DDC/CI device-abstraction layer of the
`monitorswitch` repository (Go package `internal/ddc`, file `detector.go`
and friends), together with theorems settling the specification claims.

External effects (running helper binaries, reading their stdout) are
modelled by explicit oracle parameters: an `Option String` is the captured
standard output of one external command (`none` = the command failed), and
`String → Bool` models `exec.LookPath` resolution on the executable search
path.  All pure text processing (trimming, splitting, the regular
expressions used by the Go code) is translated directly from the source.
-/

namespace MonitorSwitch

/-! ## Character classes and Go string primitives -/

/-- Go `unicode.IsSpace` (the class used by `strings.TrimSpace` and
`strings.Fields`): ASCII whitespace plus the Unicode space code points. -/
def goUniSpace (c : Char) : Bool :=
  let n := c.toNat
  n = 0x20 || (0x9 ≤ n && n ≤ 0xd) || n = 0x85 || n = 0xa0 ||
  n = 0x1680 || (0x2000 ≤ n && n ≤ 0x200a) ||
  n = 0x2028 || n = 0x2029 || n = 0x202f || n = 0x205f || n = 0x3000

/-- The RE2 character class `\s` used by Go's `regexp`: `[\t\n\f\r ]`. -/
def goSpace (c : Char) : Bool :=
  let n := c.toNat
  n = 0x20 || n = 0x9 || n = 0xa || n = 0xc || n = 0xd

/-- The RE2 character class `\d`: `[0-9]`. -/
def goDigit (c : Char) : Bool :=
  48 ≤ c.toNat && c.toNat ≤ 57

/-- Go `strings.TrimSpace`. -/
def goTrimSpace (s : String) : String :=
  String.mk (((s.toList.dropWhile goUniSpace).reverse.dropWhile goUniSpace).reverse)

/-- Go `strings.Fields`: split around runs of whitespace, dropping empties. -/
def goFieldsAux : List Char → List Char → List String
  | [], acc => if acc.isEmpty then [] else [String.mk acc.reverse]
  | c :: cs, acc =>
    if goUniSpace c then
      if acc.isEmpty then goFieldsAux cs []
      else String.mk acc.reverse :: goFieldsAux cs []
    else goFieldsAux cs (c :: acc)

def goFields (s : String) : List String := goFieldsAux s.toList []

/-- Is `pre` a prefix of `l`? (char-list version of Go `strings.HasPrefix`). -/
def isPrefixC : List Char → List Char → Bool
  | [], _ => true
  | _ :: _, [] => false
  | a :: as, b :: bs => a = b && isPrefixC as bs

/-- Go `strings.Contains` (substring search). -/
def containsSubC : List Char → List Char → Bool
  | [], needle => needle.isEmpty
  | c :: rest, needle => isPrefixC needle (c :: rest) || containsSubC rest needle

def containsSubstr (s sub : String) : Bool := containsSubC s.toList sub.toList

/-- Go `strings.HasPrefix`. -/
def goHasPrefix (s p : String) : Bool := isPrefixC p.toList s.toList

/-- Go `strings.Contains` with a one-character needle. -/
def goContainsChar (s : String) (c : Char) : Bool := s.toList.any (fun x => x = c)

/-- Consume an exact literal from the front of the input, or fail. -/
def dropLit : List Char → List Char → Option (List Char)
  | [], cs => some cs
  | _ :: _, [] => none
  | l :: ls, c :: cs => if c = l then dropLit ls cs else none

/-- Go `strings.Split(s, "\n")`: split at every newline. -/
def splitLinesC : List Char → List Char → List String
  | [], acc => [String.mk acc.reverse]
  | c :: rest, acc =>
    if c = '\n' then String.mk acc.reverse :: splitLinesC rest []
    else splitLinesC rest (c :: acc)

def goSplitNl (s : String) : List String := splitLinesC s.toList []

/-- The input after the first occurrence of `sep` (`none` when `sep` does
not occur). -/
def afterFirstSub (sep : List Char) : List Char → Option (List Char)
  | [] => if sep.isEmpty then some [] else none
  | c :: rest =>
    match dropLit sep (c :: rest) with
    | some tail => some tail
    | none => afterFirstSub sep rest

/-- The input up to (excluding) the first occurrence of `sep` (the whole
input when `sep` does not occur). -/
def upToFirstSub (sep : List Char) : List Char → List Char
  | [] => []
  | c :: rest =>
    if (dropLit sep (c :: rest)).isSome then []
    else c :: upToFirstSub sep rest

/-- Greedy `p+`: at least one character satisfying `p`, then the rest. -/
def plusP (p : Char → Bool) : List Char → Option (List Char)
  | [] => none
  | c :: rest => if p c then some (rest.dropWhile p) else none

/-- Numeric value of a run of decimal digits (Go `strconv.Atoi` on a
digit-only string, overflow handled separately via `goAtoiOk`). -/
def digitsToNat (ds : List Char) : Nat :=
  ds.foldl (fun a c => a * 10 + (c.toNat - 48)) 0

/-- Go `strconv.Atoi` succeeds on a digit string iff the value fits in a
64-bit signed int. -/
def goAtoiOk (v : Nat) : Bool := v < 9223372036854775808

/-- Greedy `(\d+)` capture at the current position: the captured value and
the remaining input. -/
def captureDigits (cs : List Char) : Option (Nat × List Char) :=
  let ds := cs.takeWhile goDigit
  if ds.isEmpty then none else some (digitsToNat ds, cs.dropWhile goDigit)

/-- Uppercase hex digit, for Go's `%02X` format verb. -/
def hexDigitU (n : Nat) : Char :=
  if n < 10 then Char.ofNat (48 + n) else Char.ofNat (55 + n)

/-- Go `fmt.Sprintf("%02X", b)` for a byte value. -/
def toHex2 (n : Nat) : String :=
  String.mk [hexDigitU ((n / 16) % 16), hexDigitU (n % 16)]

/-- Go `strconv.ParseUint(s, 16, 8)`: hex digits only, value below 256. -/
def hexVal (c : Char) : Option Nat :=
  let n := c.toNat
  if 48 ≤ n ∧ n ≤ 57 then some (n - 48)
  else if 97 ≤ n ∧ n ≤ 102 then some (n - 87)
  else if 65 ≤ n ∧ n ≤ 70 then some (n - 55)
  else none

def parseHexDigits : List Char → Nat → Option Nat
  | [], acc => some acc
  | c :: cs, acc =>
    match hexVal c with
    | some d => parseHexDigits cs (acc * 16 + d)
    | none => none

def parseHex8 (s : String) : Option Nat :=
  match s.toList with
  | [] => none
  | cs =>
    match parseHexDigits cs 0 with
    | some v => if v < 256 then some v else none
    | none => none

/-! ## The Monitor model (`internal/ddc/types.go`)

Go's `map[string]byte` for `Inputs` is modelled as an association list
with insert-or-overwrite update (keys stay unique). -/

structure Monitor where
  ID : String
  Name : String
  Inputs : List (String × Nat)
  CurrentInput : String
deriving DecidableEq, Repr

/-- `inputs[name] = code` on the association-list model of a Go map. -/
def insertAssoc (m : List (String × Nat)) (k : String) (v : Nat) : List (String × Nat) :=
  match m with
  | [] => [(k, v)]
  | (k0, v0) :: rest => if k0 = k then (k, v) :: rest else (k0, v0) :: insertAssoc rest k v

/-! ## Tool availability scanner

`exec.LookPath` is modelled by `onPath : String → Bool` (`true` iff the
binary resolves on the executable search path).  The Go code tests
`err != nil` — i.e. NOT found — before returning a tool name in the
`ddcutil`/`ddccontrol` checks; the translation keeps that inversion. -/

/-- `detectAvailableDDCToolsLinux` (detector.go): note the inverted
`LookPath` error checks, translated exactly as written. -/
def detectAvailableDDCToolsLinux (onPath : String → Bool) : String :=
  if ¬ onPath "ddcutil" then "ddcutil"
  else if ¬ onPath "ddccontrol" then "ddccontrol"
  else ""

/-- `detectAvailableDDCTool` (macOS path): the `m1ddc`/`ddcctl` checks test
`err == nil` (found), the trailing `ddcutil`/`ddccontrol` checks test
`err != nil` (not found), exactly as in the source. -/
def detectAvailableDDCTool (onPath : String → Bool) : String :=
  if onPath "m1ddc" then "m1ddc"
  else if onPath "ddcctl" then "ddcctl"
  else if ¬ onPath "ddcutil" then "ddcutil"
  else if ¬ onPath "ddccontrol" then "ddccontrol"
  else ""

/-! ## DDC validation engine -/

/-- The probe value computed at the top of `testWriteBrightness`:
`testValue := originalBrightness + 10` in `uint16` arithmetic, wrapped down
to `-10` (or a fixed 50) when above 100. -/
def probeValue (originalBrightness : Nat) : Nat :=
  let testValue := (originalBrightness + 10) % 65536
  if testValue > 100 then
    if originalBrightness ≥ 10 then originalBrightness - 10 else 50
  else testValue

/-- `testWriteBrightness`, instrumented with the list of brightness values
whose `setBrightnessValue` command is issued (in order).  `setFails v`
tells whether the set command for value `v` exits with an error; `reRead`
is the result of the verification `testReadBrightness` after the probe
write (`none` = that read failed).  The Go function returns only the Bool;
the issued-write list makes the side effects visible to the theorems. -/
def testWriteBrightness (originalBrightness : Nat) (setFails : Nat → Bool)
    (reRead : Option Nat) : Bool × List Nat :=
  let testValue := probeValue originalBrightness
  if setFails testValue then (false, [testValue])
  else
    match reRead with
    | none => (false, [testValue])
    | some newBrightness =>
      (decide (newBrightness = testValue), [testValue, originalBrightness])

structure DDCValidationResult where
  ToolAvailable : Bool
  CanReadValues : Bool
  CanWriteValues : Bool
  ValidationError : Option String
  RecommendedAction : String
deriving DecidableEq, Repr

/-- `validateDDCSupport`.  `readRes` is the result of the initial
`testReadBrightness` (`Except.error e` = the read failed with `e`);
`setFails`/`reRead` are the oracles of the embedded `testWriteBrightness`
round trip. -/
def validateDDCSupport (tool : String) (readRes : Except String Nat)
    (setFails : Nat → Bool) (reRead : Option Nat) : DDCValidationResult :=
  if tool = "" then
    { ToolAvailable := false, CanReadValues := false, CanWriteValues := false
      ValidationError := some "no DDC tool available"
      RecommendedAction := "Install 'm1ddc' or 'ddcctl' to enable DDC functionality." }
  else
    match readRes with
    | .error e =>
      { ToolAvailable := true, CanReadValues := false, CanWriteValues := false
        ValidationError := some ("Cannot read brightness: " ++ e)
        RecommendedAction := "Monitor may not support DDC/CI or connection issue" }
    | .ok currentBrightness =>
      if (testWriteBrightness currentBrightness setFails reRead).1 = false then
        { ToolAvailable := true, CanReadValues := true, CanWriteValues := false
          ValidationError := some "DDC commands execute but have no effect"
          RecommendedAction := "VGA/older connections often don't support DDC control. Try HDMI/DisplayPort" }
      else
        { ToolAvailable := true, CanReadValues := true, CanWriteValues := true
          ValidationError := none, RecommendedAction := "" }

/-! ## `parseVCPValue` and its regular expressions

Each Go regex pattern is translated into a deterministic matcher over
`List Char`.  The patterns used (`control\s+#\d+\s+=\s+(\d+)`,
`label\s*=\s*(\d+)`, `label:\s*(\d+)`, `(\d+)`, `^\s*(\d+)\s*$`) contain no
construct on which greedy matching without backtracking differs from RE2
semantics, so greedy consumption is faithful.  Unanchored patterns are
searched for the leftmost position with a successful match, as
`FindStringSubmatch` does. -/

/-- `control\s+#\d+\s+=\s+(\d+)` matched at the current position. -/
def pControlAt (cs : List Char) : Option Nat := do
  let cs ← dropLit "control".toList cs
  let cs ← plusP goSpace cs
  let cs ← dropLit ['#'] cs
  let cs ← plusP goDigit cs
  let cs ← plusP goSpace cs
  let cs ← dropLit ['='] cs
  let cs ← plusP goSpace cs
  let (v, _) ← captureDigits cs
  pure v

/-- `<label>\s*=\s*(\d+)` matched at the current position. -/
def pLabelEqAt (label : String) (cs : List Char) : Option Nat := do
  let cs ← dropLit label.toList cs
  let cs := cs.dropWhile goSpace
  let cs ← dropLit ['='] cs
  let cs := cs.dropWhile goSpace
  let (v, _) ← captureDigits cs
  pure v

/-- `<label>:\s*(\d+)` matched at the current position. -/
def pLabelColonAt (label : String) (cs : List Char) : Option Nat := do
  let cs ← dropLit (label ++ ":").toList cs
  let cs := cs.dropWhile goSpace
  let (v, _) ← captureDigits cs
  pure v

/-- The bare `(\d+)` fallback pattern at the current position. -/
def pAnyAt (cs : List Char) : Option Nat := (captureDigits cs).map (·.1)

/-- The anchored `^\s*(\d+)\s*$` pattern (matched only at the start). -/
def pWholeAt (cs : List Char) : Option Nat := do
  let cs := cs.dropWhile goSpace
  let (v, rest) ← captureDigits cs
  if (rest.dropWhile goSpace).isEmpty then pure v else none

/-- Leftmost-match search for an unanchored pattern
(`regexp.FindStringSubmatch`). -/
def findCapture (pAt : List Char → Option Nat) : List Char → Option Nat
  | [] => pAt []
  | c :: rest =>
    match pAt (c :: rest) with
    | some v => some v
    | none => findCapture pAt rest

/-- The pattern-cascade loop in `parseVCPValue`: the first pattern that
both matches and yields an `Atoi`-convertible capture wins. -/
def firstParse : List (Option Nat) → Option Nat
  | [] => none
  | r :: rest =>
    match r with
    | some v => if goAtoiOk v then some v else firstParse rest
    | none => firstParse rest

/-- The error message of a `parseVCPValue` failure (carries the trimmed
raw output). -/
def vcpParseErr (out : String) : String :=
  "could not parse value from output: '" ++ out ++ "'"

/-- `parseVCPValue(output, tool, code)`.  The `code` argument is unused by
the Go function as well.  The successful value goes through Go's
`uint16(value)` conversion, i.e. reduction mod 65536. -/
def parseVCPValue (output tool : String) (code : Nat) : Except String Nat :=
  let _ := code
  let out := goTrimSpace output
  let cs := out.toList
  let res :=
    if tool = "ddcctl" then
      firstParse
        [findCapture pControlAt cs,
         findCapture (pLabelEqAt "brightness") cs,
         findCapture (pLabelEqAt "contrast") cs,
         findCapture (pLabelEqAt "volume") cs,
         findCapture (pLabelEqAt "input") cs,
         findCapture pAnyAt cs]
    else if tool = "m1ddc" then
      firstParse
        [findCapture (pLabelColonAt "luminance") cs,
         findCapture (pLabelColonAt "contrast") cs,
         findCapture (pLabelColonAt "volume") cs,
         findCapture (pLabelColonAt "input") cs,
         pWholeAt cs]
    else none
  match res with
  | some v => .ok (v % 65536)
  | none => .error (vcpParseErr out)

/-! ## macOS VCP command construction (`setMacOSVCP` / `getMacOSVCP`)

The functions below model the `switch tool { switch code { ... } }`
command-construction blocks.  In Go, `var cmd *exec.Cmd` starts out nil;
a path that reaches `cmd.Run()`/`cmd.Output()` without assigning it is a
nil-pointer dereference, modelled by `nilPanic`. -/

inductive CmdResult where
  | issued (argv : List String)
  | reported (msg : String)
  | nilPanic
deriving DecidableEq, Repr

/-- The command-construction switch of `setMacOSVCP` given the detected
tool.  Both tool cases carry a `default:` that reports an unsupported
code; a tool that is neither `ddcctl` nor `m1ddc` leaves `cmd` nil. -/
def setMacOSVCPCmd (tool : String) (displayNum : Nat) (code : Nat) (value : Nat) : CmdResult :=
  if tool = "ddcctl" then
    if code = 0x10 then .issued ["ddcctl", "-d", toString displayNum, "-b", toString value]
    else if code = 0x12 then .issued ["ddcctl", "-d", toString displayNum, "-c", toString value]
    else if code = 0x60 then .issued ["ddcctl", "-d", toString displayNum, "-i", toString value]
    else if code = 0x62 then .issued ["ddcctl", "-d", toString displayNum, "-v", toString value]
    else .reported ("unsupported VCP code for ddcctl: 0x" ++ toHex2 code)
  else if tool = "m1ddc" then
    if code = 0x10 then .issued ["m1ddc", "display", toString displayNum, "set", "luminance", toString value]
    else if code = 0x12 then .issued ["m1ddc", "display", toString displayNum, "set", "contrast", toString value]
    else if code = 0x60 then .issued ["m1ddc", "display", toString displayNum, "set", "input", toString value]
    else if code = 0x62 then .issued ["m1ddc", "display", toString displayNum, "set", "volume", toString value]
    else .reported ("unsupported VCP code for m1ddc: 0x" ++ toHex2 code)
  else .nilPanic

/-- The command-construction switch of `getMacOSVCP`.  The `ddcctl` case
has a `default:` returning an error; the `m1ddc` case has NO default, so
an unmapped code falls through with `cmd` still nil and the following
`cmd.Output()` dereferences a nil pointer. -/
def getMacOSVCPCmd (tool : String) (displayNum : Nat) (code : Nat) : CmdResult :=
  if tool = "ddcctl" then
    if code = 0x10 then .issued ["ddcctl", "-d", toString displayNum, "-b", "?"]
    else if code = 0x12 then .issued ["ddcctl", "-d", toString displayNum, "-c", "?"]
    else if code = 0x60 then .issued ["ddcctl", "-d", toString displayNum, "-i", "?"]
    else if code = 0x62 then .issued ["ddcctl", "-d", toString displayNum, "-v", "?"]
    else .reported ("unsupported VCP code for ddcctl: 0x" ++ toHex2 code)
  else if tool = "m1ddc" then
    if code = 0x10 then .issued ["m1ddc", "display", toString displayNum, "get", "luminance"]
    else if code = 0x12 then .issued ["m1ddc", "display", toString displayNum, "get", "contrast"]
    else if code = 0x60 then .issued ["m1ddc", "display", toString displayNum, "get", "input"]
    else if code = 0x62 then .issued ["m1ddc", "display", toString displayNum, "get", "volume"]
    else .nilPanic
  else .nilPanic

/-! ## Linux input-source parsing (`parseLinuxInputSources`) -/

/-- `linuxInputCodeToName`: the fixed VCP input-code → name table. -/
def linuxInputCodeToName (code : Nat) : String :=
  if code = 0x0F then "DisplayPort"
  else if code = 0x11 then "HDMI-1"
  else if code = 0x12 then "HDMI-2"
  else if code = 0x13 then "HDMI-3"
  else if code = 0x03 then "DVI-1"
  else if code = 0x04 then "DVI-2"
  else if code = 0x01 then "VGA"
  else "Input-0x" ++ toHex2 code

/-- Go `strings.TrimPrefix`. -/
def goStripLeadingLit (p s : String) : String :=
  match dropLit p.toList s.toList with
  | some rest => String.mk rest
  | none => s

/-- The per-line loop of `parseLinuxInputSources`: the boolean is the
`inInputSection` flag, the accumulator the map built so far; processing
stops (`break`) after the first `Values:` line of the section or at the
next `Feature:` line. -/
def parseLinuxInputsLoop : List String → Bool → List (String × Nat) → List (String × Nat)
  | [], _, acc => acc
  | l :: ls, inSec, acc =>
    let line := goTrimSpace l
    if containsSubstr line "Feature: 60 (Input Source)" then
      parseLinuxInputsLoop ls true acc
    else if inSec && goHasPrefix line "Values:" then
      (goFields (goStripLeadingLit "Values: " line)).foldl
        (fun m hexStr =>
          match parseHex8 hexStr with
          | some code => insertAssoc m (linuxInputCodeToName code) code
          | none => m) acc
    else if inSec && goHasPrefix line "Feature:" then acc
    else parseLinuxInputsLoop ls inSec acc

def parseLinuxInputSources (capabilities : String) : List (String × Nat) :=
  parseLinuxInputsLoop (goSplitNl capabilities) false []

/-! ## Linux detection pipeline

The external-command environment of the Linux backend. `none` models a
command that exits with an error (`cmd.Output()` returning `err != nil`). -/

structure LinuxEnv where
  onPath : String → Bool
  ddcutilDetect : Option String
  caps : String → Option String
  getvcp60 : String → Option String
  xrandr : Option String

/-- `extractField(line, fieldName)`: split on the field label and trim the
part after its first occurrence. -/
def extractField (line fieldName : String) : String :=
  match afterFirstSub fieldName.toList line.toList with
  | some tail => goTrimSpace (String.mk (upToFirstSub fieldName.toList tail))
  | none => ""

/-- The `current value = (\d+)` pattern of `getLinuxCurrentInput` at the
current position. -/
def pCurrentValAt (cs : List Char) : Option Nat := do
  let cs ← dropLit "current value = ".toList cs
  let (v, _) ← captureDigits cs
  pure v

/-- `getLinuxCurrentInput`: run `ddcutil getvcp 60`, extract the current
value, convert through `byte(code)` and the code → name table. -/
def getLinuxCurrentInput (env : LinuxEnv) (monitorID : String) : String :=
  match env.getvcp60 monitorID with
  | none => ""
  | some out =>
    match findCapture pCurrentValAt out.toList with
    | some v => if goAtoiOk v then linuxInputCodeToName (v % 256) else ""
    | none => ""

/-- `enhanceLinuxMonitorWithCapabilities`: on a successful `capabilities`
run, replace `Inputs` by the parsed input sources and set `CurrentInput`
when a non-empty current input is found. -/
def enhanceLinuxMonitorWithCapabilities (env : LinuxEnv) (monitor : Monitor) : Monitor :=
  match env.caps monitor.ID with
  | none => monitor
  | some out =>
    let monitor := { monitor with Inputs := parseLinuxInputSources out }
    let currentInput := getLinuxCurrentInput env monitor.ID
    if currentInput ≠ "" then { monitor with CurrentInput := currentInput } else monitor

/-- The capture of the `Display (\d+)` regex at the current position. -/
def displayNumAt (cs : List Char) : Option String :=
  match dropLit "Display ".toList cs with
  | some rest =>
    let ds := rest.takeWhile goDigit
    if ds.isEmpty then none else some (String.mk ds)
  | none => none

/-- Leftmost match of `Display (\d+)` (`FindStringSubmatch`). -/
def findDisplayNum : List Char → Option String
  | [] => displayNumAt []
  | c :: rest =>
    match displayNumAt (c :: rest) with
    | some v => some v
    | none => findDisplayNum rest

/-- The `Mfg id:` update of the current monitor's name. -/
def applyMfg (line : String) (m : Monitor) : Monitor :=
  if containsSubstr line "Mfg id:" then
    let mfg := extractField line "Mfg id:"
    if mfg ≠ "" then { m with Name := mfg } else m
  else m

/-- The `Model:` update of the current monitor's name (the model is only
appended when a name is already present, as in the source). -/
def applyModel (line : String) (m : Monitor) : Monitor :=
  if containsSubstr line "Model:" then
    let model := extractField line "Model:"
    if model ≠ "" ∧ m.Name ≠ "" then { m with Name := m.Name ++ " " ++ model } else m
  else m

/-- One iteration of the line loop of `parseDdcutilDetectOutput`.  The
state is (monitors appended so far, the current in-progress monitor). -/
def ddcutilStep (st : List Monitor × Option Monitor) (rawLine : String) :
    List Monitor × Option Monitor :=
  let line := goTrimSpace rawLine
  let st1 :=
    if goHasPrefix line "Display " then
      let ms := st.1 ++ st.2.toList
      match findDisplayNum line.toList with
      | some n => (ms, some { ID := n, Name := "", Inputs := [], CurrentInput := "" })
      | none => (ms, st.2)
    else st
  (st1.1, st1.2.map (fun m => applyModel line (applyMfg line m)))

/-- `parseDdcutilDetectOutput`: the line loop, the final flush of the
current monitor, then per-monitor capability enhancement. -/
def parseDdcutilDetectOutput (env : LinuxEnv) (output : String) : List Monitor :=
  let st := (goSplitNl output).foldl ddcutilStep ([], none)
  let monitors := st.1 ++ st.2.toList
  monitors.map (enhanceLinuxMonitorWithCapabilities env)

/-- `detectWithDdcutil`: `nil` on command failure, else the parsed list. -/
def detectWithDdcutil (env : LinuxEnv) : Option (List Monitor) :=
  match env.ddcutilDetect with
  | none => none
  | some out => some (parseDdcutilDetectOutput env out)

/-- `detectWithCLITools`: only the `ddcutil` case of the tool switch is
implemented; every other outcome yields the empty list. -/
def detectWithCLITools (env : LinuxEnv) : List Monitor :=
  let tool := detectAvailableDDCToolsLinux env.onPath
  if tool ≠ "" then
    if tool = "ddcutil" then
      match detectWithDdcutil env with
      | some ms => if ms.length > 0 then ms else []
      | none => []
    else []
  else []

/-- One line of `parseXrandrOutput`: monitor lines contain a colon, are
not the `Monitors:` header, and must have at least three fields; the
connection name is the last field. -/
def xrandrStep (ms : List Monitor) (line : String) : List Monitor :=
  if goContainsChar line ':' ∧ ¬ goHasPrefix line "Monitors:" then
    let parts := goFields line
    if parts.length ≥ 3 then
      ms ++ [{ ID := toString (ms.length + 1), Name := parts.getLastD ""
               Inputs := [], CurrentInput := "" }]
    else ms
  else ms

def parseXrandrOutput (output : String) : List Monitor :=
  (goSplitNl output).foldl xrandrStep []

def detectWithXrandr (env : LinuxEnv) : Except String (List Monitor) :=
  match env.xrandr with
  | none => .error "xrandr command failed"
  | some out => .ok (parseXrandrOutput out)

def detectWithCoreSystem (env : LinuxEnv) : Except String (List Monitor) :=
  match detectWithXrandr env with
  | .ok ms => if ms.length > 0 then .ok ms
              else .error "no monitors detected with core system methods"
  | .error _ => .error "no monitors detected with core system methods"

/-- `detectLinuxMonitors`: CLI tools first, core-system fallback second. -/
def detectLinuxMonitors (env : LinuxEnv) : Except String (List Monitor) :=
  let cli := detectWithCLITools env
  if cli.length > 0 then .ok cli else detectWithCoreSystem env

/-! ## macOS detection pipeline -/

/-- The fields of one `spdisplays_ndrvs` entry actually consumed by the
detection code. -/
structure SPNdrv where
  Name : String
  ConnectionType : String
  DisplayID : String
  DisplayVendorID : String
deriving DecidableEq, Repr

/-- `getVendorName`: the known-vendor hex-id table. -/
def getVendorName (vendorID : String) : String :=
  if vendorID = "610" then "Apple"
  else if vendorID = "5e3" then "ASUS"
  else if vendorID = "10ac" then "Dell"
  else if vendorID = "1e6d" then "LG"
  else if vendorID = "4c2d" then "Samsung"
  else ""

/-- `getDisplayName`: tool-reported name, else vendor-derived name, else a
generic fallback. -/
def getDisplayName (ndrv : SPNdrv) : String :=
  if ndrv.Name ≠ "" ∧ ndrv.Name ≠ "(null)" then ndrv.Name
  else
    let vendorName := getVendorName ndrv.DisplayVendorID
    if vendorName ≠ "" then vendorName ++ " Display"
    else "External Display " ++ ndrv.DisplayID

/-- The loop body of `getSystemProfilerDisplays`: internal panels are
skipped; external ones become Monitors with empty `Inputs` and empty
`CurrentInput`. -/
def spMonitorOf (ndrv : SPNdrv) : Option Monitor :=
  if ndrv.ConnectionType = "spdisplays_internal" then none
  else some
    { ID := ndrv.DisplayID
      Name := if ndrv.Name ≠ "" ∧ ndrv.Name ≠ "(null)" then ndrv.Name else getDisplayName ndrv
      Inputs := [], CurrentInput := "" }

/-- `getSystemProfilerDisplays`.  `cmdOut` is the captured stdout of
`system_profiler SPDisplaysDataType -json` (`none` = command failed) and
`unmarshal` the JSON decoding of that output into the display groups
(`none` = `json.Unmarshal` failed).  Returns the Go `(monitors, err)`
pair. -/
def getSystemProfilerDisplays (cmdOut : Option String)
    (unmarshal : String → Option (List (List SPNdrv))) :
    List Monitor × Option String :=
  match cmdOut with
  | none => ([], some "system_profiler command failed")
  | some out =>
    match unmarshal out with
    | none => ([], some "failed to parse system_profiler output")
    | some groups =>
      let monitors := groups.flatMap (fun ndrvs => ndrvs.filterMap spMonitorOf)
      if monitors.length = 0 then
        ([], some "no external monitors found in system_profiler output")
      else (monitors, none)

/-- The external-command oracles of the macOS enhancement path, indexed by
the 1-based display number. -/
structure MacEnv where
  readB : Nat → Except String Nat
  setFails : Nat → Nat → Bool
  reRead : Nat → Option Nat
  curOut : Nat → Option String
  inputOk : Nat → Nat → Bool

/-- `getCurrentInputSafe`: run the tool's input query and parse its
output. -/
def getCurrentInputSafe (env : MacEnv) (displayNum : Nat) (tool : String) :
    Except String Nat :=
  match env.curOut displayNum with
  | none => .error "command failed"
  | some out => parseVCPValue out tool 0x60

/-- The `M1DDCInputSources` table, in source order.  (Go map iteration
order is unspecified; the order is irrelevant to the claims proved
below.) -/
def M1DDCInputSources : List (String × Nat) :=
  [("DisplayPort", 15), ("DP", 15), ("DP-1", 15), ("DP-2", 16),
   ("HDMI", 17), ("HDMI-1", 17), ("HDMI-2", 18), ("USB-C", 27), ("Thunderbolt", 27)]

/-- `detectAvailableInputs`: probe each candidate input code. -/
def detectAvailableInputs (env : MacEnv) (displayNum : Nat) : List (String × Nat) :=
  M1DDCInputSources.foldl
    (fun acc nc => if env.inputOk displayNum nc.2 then insertAssoc acc nc.1 nc.2 else acc) []

/-- `addReadOnlyInfo`. -/
def addReadOnlyInfo (env : MacEnv) (display : Monitor) (displayNum : Nat) (tool : String) :
    Monitor :=
  let display :=
    match getCurrentInputSafe env displayNum tool with
    | .ok currentInput =>
      if currentInput ≠ 0 then
        { display with CurrentInput := toString currentInput ++ " (read-only)" }
      else display
    | .error _ => display
  { display with Inputs := [] }

/-- `addFullDDCInfo`. -/
def addFullDDCInfo (env : MacEnv) (display : Monitor) (displayNum : Nat) (tool : String) :
    Monitor :=
  let display :=
    match getCurrentInputSafe env displayNum tool with
    | .ok currentInput =>
      if currentInput ≠ 0 then { display with CurrentInput := toString currentInput }
      else display
    | .error _ => display
  { display with Inputs := detectAvailableInputs env displayNum }

/-- `enhancedDisplayWithValidation`. -/
def enhancedDisplayWithValidation (env : MacEnv) (baseDisplay : Monitor)
    (displayNum : Nat) (tool : String) : Monitor :=
  if tool = "" then baseDisplay
  else
    let validation :=
      validateDDCSupport tool (env.readB displayNum) (env.setFails displayNum)
        (env.reRead displayNum)
    if validation.CanReadValues = false then baseDisplay
    else if validation.CanWriteValues = false then
      addReadOnlyInfo env baseDisplay displayNum tool
    else addFullDDCInfo env baseDisplay displayNum tool

/-- The enhancement loop of `detectMacOSMonitors` (`displayNum := i + 1`). -/
def enhanceAll (env : MacEnv) (tool : String) : Nat → List Monitor → List Monitor
  | _, [] => []
  | i, m :: ms => enhancedDisplayWithValidation env m (i + 1) tool :: enhanceAll env tool (i + 1) ms

/-- `detectMacOSMonitors`, instrumented with the number of
`enhancedDisplayWithValidation` invocations (second component).  The Go
function returns `baseDisplays, nil` whenever the `system_profiler`
inventory reports no error, and returns an empty list with nil error
otherwise. -/
def detectMacOSMonitors (cmdOut : Option String)
    (unmarshal : String → Option (List (List SPNdrv)))
    (env : MacEnv) (onPath : String → Bool) :
    Except String (List Monitor) × Nat :=
  let pair := getSystemProfilerDisplays cmdOut unmarshal
  match pair.2 with
  | none => (.ok pair.1, 0)
  | some _ =>
    if pair.1.length = 0 then (.ok [], 0)
    else
      let availableTool := detectAvailableDDCTool onPath
      (.ok (enhanceAll env availableTool 0 pair.1), pair.1.length)

/-! # Theorems settling the claims -/

/-- Does the command-construction outcome issue a concrete command? -/
def CmdResult.isIssued : CmdResult → Bool
  | .issued _ => true
  | _ => false

/-- Claim C1: for both ddcctl and m1ddc and both SetVCP and GetVCP, each
VCP code in {0x10, 0x12, 0x60, 0x62} maps to a concrete sub-command; but
the claim's second half fails: `getMacOSVCP` with m1ddc and a code outside
that set leaves `cmd` nil and crashes on `cmd.Output()` instead of
returning a reported error (the other three switches do report an error).
This theorem records both the totality of the mapping and the divergence
at the failing input. -/
theorem vcpCmdMapping_total_but_m1ddc_get_crashes :
    ((["ddcctl", "m1ddc"] : List String).all fun tool =>
      ([0x10, 0x12, 0x60, 0x62] : List Nat).all fun code =>
        (setMacOSVCPCmd tool 1 code 30).isIssued && (getMacOSVCPCmd tool 1 code).isIssued) = true ∧
    setMacOSVCPCmd "ddcctl" 1 0x14 30 = .reported "unsupported VCP code for ddcctl: 0x14" ∧
    setMacOSVCPCmd "m1ddc" 1 0x14 30 = .reported "unsupported VCP code for m1ddc: 0x14" ∧
    getMacOSVCPCmd "ddcctl" 1 0x14 = .reported "unsupported VCP code for ddcctl: 0x14" ∧
    getMacOSVCPCmd "m1ddc" 1 0x14 = .nilPanic := by
  refine ⟨by decide, by decide, by decide, by decide, by decide⟩

/-- Claim C2: the claim states the scanner returns the first tool of the
preference list that resolves on the path, and the empty string when none
resolve.  The code inverts the `LookPath` test for `ddcutil`/`ddccontrol`:
with NO tool on the path both scanners return "ddcutil"; with only
`ddcutil` resolvable the Linux scanner returns "ddccontrol"; with both
Linux tools resolvable it returns "". -/
theorem detectAvailableDDCTools_inverted :
    detectAvailableDDCToolsLinux (fun _ => false) = "ddcutil" ∧
    detectAvailableDDCTool (fun _ => false) = "ddcutil" ∧
    detectAvailableDDCToolsLinux (fun t => t == "ddcutil") = "ddccontrol" ∧
    detectAvailableDDCToolsLinux (fun t => t == "ddcutil" || t == "ddccontrol") = "" := by
  refine ⟨by decide, by decide, by decide, by decide⟩

/-- Claim C5: for every initial brightness 0–100 the probe value is
initial+10 when that stays within 100, else initial−10 when initial ≥ 10,
else 50; in particular 95 ↦ 85 and 50 ↦ 60. -/
theorem probeValue_spec (b : Nat) (hb : b ≤ 100) :
    probeValue b = (if b + 10 ≤ 100 then b + 10 else if 10 ≤ b then b - 10 else 50) ∧
    probeValue 95 = 85 ∧ probeValue 50 = 60 := by
  refine ⟨?_, by decide, by decide⟩
  have h : (b + 10) % 65536 = b + 10 := Nat.mod_eq_of_lt (by omega)
  simp only [probeValue, h]
  split_ifs <;> omega

/-- Witness for `probeValue_spec` at the concrete input 95. -/
theorem probeValue_spec_witness :
    probeValue 95 = (if 95 + 10 ≤ 100 then 95 + 10 else if 10 ≤ 95 then 95 - 10 else 50) ∧
    probeValue 95 = 85 ∧ probeValue 50 = 60 :=
  probeValue_spec 95 (by decide)

/-- Claim C3, counterexample: with initial brightness 50, a succeeding
probe write and a FAILING verification re-read, the only brightness write
issued is the probe (60); no write restoring the original value 50 is
attempted, contradicting "a restore is attempted in every case regardless
of whether the verification re-read succeeds". -/
theorem testWriteBrightness_no_restore_on_reread_failure :
    (testWriteBrightness 50 (fun _ => false) none).2 = [60] ∧
    (50 : Nat) ∉ (testWriteBrightness 50 (fun _ => false) none).2 := by
  refine ⟨by decide, by decide⟩

/-- Claim C3, amended: whenever the probe write succeeds AND the
verification re-read succeeds, the restore write of the original value is
issued afterwards — regardless of whether the re-read value matches the
probe, and regardless of whether the restore write itself fails (its
outcome is ignored: the result depends only on the re-read value). -/
theorem testWriteBrightness_restore_after_reread (orig v : Nat) (setFails : Nat → Bool)
    (hset : setFails (probeValue orig) = false) :
    (testWriteBrightness orig setFails (some v)).2 = [probeValue orig, orig] ∧
    (testWriteBrightness orig setFails (some v)).1 = decide (v = probeValue orig) := by
  simp only [testWriteBrightness, hset]
  exact ⟨rfl, rfl⟩

/-- Witness for `testWriteBrightness_restore_after_reread`: initial 50,
probe 60, re-read 61 (≠ probe) — the restore write of 50 is still issued. -/
theorem testWriteBrightness_restore_witness :
    (testWriteBrightness 50 (fun _ => false) (some 61)).2 = [probeValue 50, 50] ∧
    (testWriteBrightness 50 (fun _ => false) (some 61)).1 = decide (61 = probeValue 50) :=
  testWriteBrightness_restore_after_reread 50 61 (fun _ => false) (by decide)

/-- Claim C4: when the initial brightness read succeeds but the post-write
re-read differs from the probe value, validation reports CanReadValues and
not CanWriteValues; when the initial read fails, both are false. -/
theorem validateDDCSupport_outcomes (tool : String) (setFails : Nat → Bool)
    (b v : Nat) (e : String) (htool : tool ≠ "")
    (hset : setFails (probeValue b) = false) (hv : v ≠ probeValue b) :
    ((validateDDCSupport tool (.ok b) setFails (some v)).CanReadValues = true ∧
     (validateDDCSupport tool (.ok b) setFails (some v)).CanWriteValues = false) ∧
    ((validateDDCSupport tool (.error e) setFails (some v)).CanReadValues = false ∧
     (validateDDCSupport tool (.error e) setFails (some v)).CanWriteValues = false) := by
  have hw : (testWriteBrightness b setFails (some v)).1 = false := by
    simp only [testWriteBrightness, hset]
    simp [hv]
  constructor
  · simp [validateDDCSupport, htool, hw]
  · simp [validateDDCSupport, htool]

/-- Witness for `validateDDCSupport_outcomes` with tool m1ddc, initial
brightness 50, re-read 61, read error "boom". -/
theorem validateDDCSupport_outcomes_witness :
    ((validateDDCSupport "m1ddc" (.ok 50) (fun _ => false) (some 61)).CanReadValues = true ∧
     (validateDDCSupport "m1ddc" (.ok 50) (fun _ => false) (some 61)).CanWriteValues = false) ∧
    ((validateDDCSupport "m1ddc" (.error "boom") (fun _ => false) (some 61)).CanReadValues = false ∧
     (validateDDCSupport "m1ddc" (.error "boom") (fun _ => false) (some 61)).CanWriteValues = false) :=
  validateDDCSupport_outcomes "m1ddc" (fun _ => false) 50 61 "boom" (by decide) (by decide) (by decide)

/-- Lines that do not mention the input-source feature are skipped by the
capability parser while outside the input section. -/
theorem parseLinuxInputsLoop_append_skip (pre : List String) :
    ∀ (rest : List String) (acc : List (String × Nat)),
    (∀ l ∈ pre, containsSubstr (goTrimSpace l) "Feature: 60 (Input Source)" = false) →
    parseLinuxInputsLoop (pre ++ rest) false acc = parseLinuxInputsLoop rest false acc := by
  induction pre with
  | nil => intro rest acc _; rfl
  | cons l ls ih =>
    intro rest acc h
    have h0 := h l (by simp)
    simp only [List.cons_append, parseLinuxInputsLoop, h0, Bool.false_eq_true, if_false,
      Bool.false_and]
    exact ih rest acc (fun x hx => h x (by simp [hx]))

/-- Claim C8: capability text whose lines are any input-section-free
preamble, then a line mentioning `Feature: 60 (Input Source)`, then a
`Values: 0F 11 12` line, then anything, parses to exactly
{DisplayPort ↦ 0x0F, HDMI-1 ↦ 0x11, HDMI-2 ↦ 0x12}. -/
theorem parseLinuxInputSources_feature60 (pre post : List String) (l1 l2 cap : String)
    (hpre : ∀ l ∈ pre, containsSubstr (goTrimSpace l) "Feature: 60 (Input Source)" = false)
    (hm : containsSubstr (goTrimSpace l1) "Feature: 60 (Input Source)" = true)
    (hv : goTrimSpace l2 = "Values: 0F 11 12")
    (hcap : goSplitNl cap = pre ++ (l1 :: l2 :: post)) :
    parseLinuxInputSources cap = [("DisplayPort", 0x0F), ("HDMI-1", 0x11), ("HDMI-2", 0x12)] := by
  unfold parseLinuxInputSources
  rw [hcap, parseLinuxInputsLoop_append_skip pre (l1 :: l2 :: post) [] hpre]
  have c2 : containsSubstr "Values: 0F 11 12" "Feature: 60 (Input Source)" = false := by decide
  have c3 : goHasPrefix "Values: 0F 11 12" "Values:" = true := by decide
  simp only [parseLinuxInputsLoop, hm, hv, c2, c3, Bool.false_eq_true, Bool.true_and,
    eq_self_iff_true, if_true, if_false]
  decide

/-- Witness for `parseLinuxInputSources_feature60` on a concrete
four-line capability transcript. -/
theorem parseLinuxInputSources_feature60_witness :
    parseLinuxInputSources
      "Model: U2720Q\nFeature: 60 (Input Source)\n   Values: 0F 11 12\nFeature: 62 (Audio)" =
      [("DisplayPort", 0x0F), ("HDMI-1", 0x11), ("HDMI-2", 0x12)] :=
  parseLinuxInputSources_feature60 ["Model: U2720Q"] ["Feature: 62 (Audio)"]
    "Feature: 60 (Input Source)" "   Values: 0F 11 12" _
    (by decide) (by decide) (by decide) (by decide)

/-- Claim C6: with neither Linux DDC tool resolvable (so the `ddcutil
detect` invocation fails) the detection falls back to xrandr, and the
given `--listmonitors` output yields exactly one Monitor named HDMI-1 with
empty Inputs and empty CurrentInput. -/
theorem detectLinuxMonitors_xrandr_fallback (env : LinuxEnv)
    (h1 : env.onPath "ddcutil" = false) (_h2 : env.onPath "ddccontrol" = false)
    (h3 : env.ddcutilDetect = none)
    (h4 : env.xrandr = some "Monitors: 1\n 0: +HDMI-1 1920x1080+0+0  HDMI-1") :
    detectLinuxMonitors env =
      .ok [{ ID := "1", Name := "HDMI-1", Inputs := [], CurrentInput := "" }] := by
  unfold detectLinuxMonitors detectWithCLITools detectWithDdcutil detectAvailableDDCToolsLinux
    detectWithCoreSystem detectWithXrandr
  rw [h1, h3, h4]
  rfl

/-- Witness for `detectLinuxMonitors_xrandr_fallback` on a fully concrete
environment. -/
theorem detectLinuxMonitors_xrandr_fallback_witness :
    detectLinuxMonitors
      { onPath := fun _ => false, ddcutilDetect := none, caps := fun _ => none
        getvcp60 := fun _ => none
        xrandr := some "Monitors: 1\n 0: +HDMI-1 1920x1080+0+0  HDMI-1" } =
      .ok [{ ID := "1", Name := "HDMI-1", Inputs := [], CurrentInput := "" }] :=
  detectLinuxMonitors_xrandr_fallback _ rfl rfl rfl rfl

/-! ### Claim C7: the `parseVCPValue` fallback behaviour -/

/-- All tool-specific labeled ddcctl patterns fail on the given (trimmed)
output. -/
def ddcctlLabeledFail (cs : List Char) : Prop :=
  findCapture pControlAt cs = none ∧
  findCapture (pLabelEqAt "brightness") cs = none ∧
  findCapture (pLabelEqAt "contrast") cs = none ∧
  findCapture (pLabelEqAt "volume") cs = none ∧
  findCapture (pLabelEqAt "input") cs = none

/-- All tool-specific labeled m1ddc patterns fail on the given (trimmed)
output. -/
def m1ddcLabeledFail (cs : List Char) : Prop :=
  findCapture (pLabelColonAt "luminance") cs = none ∧
  findCapture (pLabelColonAt "contrast") cs = none ∧
  findCapture (pLabelColonAt "volume") cs = none ∧
  findCapture (pLabelColonAt "input") cs = none

/-- "The first bare integer appearing anywhere in the output", defined
directly from the claim's words: scan to the first digit and read the
maximal digit run from there. -/
def firstNat : List Char → Option Nat
  | [] => none
  | c :: rest =>
    if goDigit c then some (digitsToNat ((c :: rest).takeWhile goDigit))
    else firstNat rest

theorem findCapture_pAny_eq_firstNat (cs : List Char) :
    findCapture pAnyAt cs = firstNat cs := by
  induction cs with
  | nil => rfl
  | cons c rest ih =>
    by_cases h : goDigit c
    · simp [findCapture, firstNat, pAnyAt, captureDigits, List.takeWhile_cons, h]
    · simp [findCapture, firstNat, pAnyAt, captureDigits, List.takeWhile_cons, h, ih]

theorem digit_not_space {c : Char} (h : goDigit c = true) : goSpace c = false := by
  have h48 : 48 ≤ c.toNat ∧ c.toNat ≤ 57 := by simpa [goDigit] using h
  simp only [goSpace, Bool.or_eq_false_iff, decide_eq_false_iff_not]
  omega

theorem takeWhile_of_all {p : Char → Bool} :
    ∀ {l : List Char}, l.all p = true → l.takeWhile p = l := by
  intro l
  induction l with
  | nil => intro _; rfl
  | cons c rest ih =>
    intro h
    simp only [List.all_cons, Bool.and_eq_true] at h
    simp [List.takeWhile_cons, h.1, ih h.2]

theorem dropWhile_of_all {p : Char → Bool} :
    ∀ {l : List Char}, l.all p = true → l.dropWhile p = [] := by
  intro l
  induction l with
  | nil => intro _; rfl
  | cons c rest ih =>
    intro h
    simp only [List.all_cons, Bool.and_eq_true] at h
    simp [List.dropWhile_cons, h.1, ih h.2]

/-- The anchored m1ddc fallback accepts an output that is entirely one
bare integer. -/
theorem pWholeAt_all_digits (cs : List Char) (hne : cs.isEmpty = false)
    (hall : cs.all goDigit = true) : pWholeAt cs = some (digitsToNat cs) := by
  have hds : cs.dropWhile goSpace = cs := by
    cases cs with
    | nil => rfl
    | cons c rest =>
      have hc : goDigit c = true := by
        simp only [List.all_cons, Bool.and_eq_true] at hall; exact hall.1
      simp [List.dropWhile_cons, digit_not_space hc]
  simp only [pWholeAt, hds, captureDigits, takeWhile_of_all hall, dropWhile_of_all hall, hne,
    Bool.false_eq_true, if_false, Option.bind_eq_bind, Option.some_bind, List.dropWhile_nil,
    List.isEmpty_nil, if_true]
  rfl

/-- The anchored m1ddc fallback rejects any output without digits. -/
theorem pWholeAt_no_digit (cs : List Char) (h : ∀ c ∈ cs, goDigit c = false) :
    pWholeAt cs = none := by
  have hsub : ∀ c ∈ cs.dropWhile goSpace, goDigit c = false :=
    fun c hc => h c ((cs.dropWhile_sublist goSpace).mem hc)
  cases hd : cs.dropWhile goSpace with
  | nil => simp [pWholeAt, hd, captureDigits]
  | cons c rest =>
    have hc : goDigit c = false := hsub c (by rw [hd]; simp)
    simp [pWholeAt, hd, captureDigits, List.takeWhile_cons, hc]

/-- Reduction of `parseVCPValue` at tool ddcctl. -/
theorem parseVCPValue_ddcctl_eq (s : String) (code : Nat) :
    parseVCPValue s "ddcctl" code =
      (match
        firstParse
          [findCapture pControlAt (goTrimSpace s).toList,
           findCapture (pLabelEqAt "brightness") (goTrimSpace s).toList,
           findCapture (pLabelEqAt "contrast") (goTrimSpace s).toList,
           findCapture (pLabelEqAt "volume") (goTrimSpace s).toList,
           findCapture (pLabelEqAt "input") (goTrimSpace s).toList,
           findCapture pAnyAt (goTrimSpace s).toList] with
       | some v => Except.ok (v % 65536)
       | none => Except.error (vcpParseErr (goTrimSpace s))) := rfl

/-- Reduction of `parseVCPValue` at tool m1ddc. -/
theorem parseVCPValue_m1ddc_eq (s : String) (code : Nat) :
    parseVCPValue s "m1ddc" code =
      (match
        firstParse
          [findCapture (pLabelColonAt "luminance") (goTrimSpace s).toList,
           findCapture (pLabelColonAt "contrast") (goTrimSpace s).toList,
           findCapture (pLabelColonAt "volume") (goTrimSpace s).toList,
           findCapture (pLabelColonAt "input") (goTrimSpace s).toList,
           pWholeAt (goTrimSpace s).toList] with
       | some v => Except.ok (v % 65536)
       | none => Except.error (vcpParseErr (goTrimSpace s))) := rfl

/-- Claim C7, counterexample: on the m1ddc parser the output
`"value 75"` contains a bare integer (75, found by the
first-integer-anywhere reading of the claim), all labeled patterns fail,
and yet the parser reports a parse failure instead of 75 — the m1ddc
fallback only matches an output that is entirely one bare integer. -/
theorem parseVCPValue_m1ddc_ignores_inner_integer :
    parseVCPValue "value 75" "m1ddc" 0x10 =
      .error "could not parse value from output: 'value 75'" ∧
    firstNat (goTrimSpace "value 75").toList = some 75 :=
  ⟨rfl, rfl⟩

/-- Claim C7, amended: both parsers try their labeled patterns in order;
when all labeled patterns fail, the ddcctl parser falls back to the first
bare integer anywhere in the output, while the m1ddc parser falls back
only to an output that is entirely one bare integer; when nothing
matches, the reported error carries the raw trimmed output. -/
theorem parseVCPValue_fallback_amended :
    (∀ s, ddcctlLabeledFail (goTrimSpace s).toList →
      parseVCPValue s "ddcctl" 0x10 =
        (match firstNat (goTrimSpace s).toList with
         | some v =>
           if goAtoiOk v then Except.ok (v % 65536)
           else Except.error (vcpParseErr (goTrimSpace s))
         | none => Except.error (vcpParseErr (goTrimSpace s)))) ∧
    (∀ s, m1ddcLabeledFail (goTrimSpace s).toList →
      (((goTrimSpace s).toList.isEmpty = false →
        (goTrimSpace s).toList.all goDigit = true →
        parseVCPValue s "m1ddc" 0x10 =
          (if goAtoiOk (digitsToNat (goTrimSpace s).toList) then
            Except.ok (digitsToNat (goTrimSpace s).toList % 65536)
           else Except.error (vcpParseErr (goTrimSpace s)))) ∧
       ((∀ c ∈ (goTrimSpace s).toList, goDigit c = false) →
        parseVCPValue s "m1ddc" 0x10 = Except.error (vcpParseErr (goTrimSpace s))))) ∧
    parseVCPValue "control #16 = 75" "ddcctl" 0x10 = .ok 75 ∧
    parseVCPValue "brightness = 75" "ddcctl" 0x10 = .ok 75 ∧
    parseVCPValue "75" "ddcctl" 0x10 = .ok 75 ∧
    parseVCPValue "Current luminance: 75" "m1ddc" 0x10 = .ok 75 ∧
    parseVCPValue "75" "m1ddc" 0x10 = .ok 75 := by
  refine ⟨?_, ?_, rfl, rfl, rfl, rfl, rfl⟩
  · intro s hf
    obtain ⟨f1, f2, f3, f4, f5⟩ := hf
    rw [parseVCPValue_ddcctl_eq, f1, f2, f3, f4, f5, findCapture_pAny_eq_firstNat]
    cases hfn : firstNat (goTrimSpace s).toList with
    | none => simp [firstParse]
    | some v =>
      by_cases hok : goAtoiOk v = true
      · simp [firstParse, hok]
      · simp only [Bool.not_eq_true] at hok
        simp [firstParse, hok]
  · intro s hf
    obtain ⟨f1, f2, f3, f4⟩ := hf
    constructor
    · intro hne hall
      rw [parseVCPValue_m1ddc_eq, f1, f2, f3, f4, pWholeAt_all_digits _ hne hall]
      show (match
              (if goAtoiOk (digitsToNat (goTrimSpace s).toList) = true then
                some (digitsToNat (goTrimSpace s).toList)
              else none) with
            | some v => Except.ok (v % 65536)
            | none => Except.error (vcpParseErr (goTrimSpace s))) = _
      by_cases hok : goAtoiOk (digitsToNat (goTrimSpace s).toList) = true
      · rw [if_pos hok, if_pos hok]
      · rw [if_neg hok, if_neg hok]
    · intro hnd
      rw [parseVCPValue_m1ddc_eq, f1, f2, f3, f4, pWholeAt_no_digit _ hnd]
      rfl

/-- Witness for `parseVCPValue_fallback_amended`, exercising the ddcctl
anywhere-fallback, the m1ddc whole-integer fallback and the m1ddc
no-match error at concrete inputs. -/
theorem parseVCPValue_fallback_amended_witness :
    parseVCPValue "reading 75 now" "ddcctl" 0x10 = .ok 75 ∧
    parseVCPValue "0075" "m1ddc" 0x10 = .ok 75 ∧
    parseVCPValue "n/a" "m1ddc" 0x10 = .error "could not parse value from output: 'n/a'" := by
  refine ⟨?_, ?_, ?_⟩
  · have h := parseVCPValue_fallback_amended.1 "reading 75 now" ⟨rfl, rfl, rfl, rfl, rfl⟩
    rw [h]; rfl
  · have h := (parseVCPValue_fallback_amended.2.1 "0075" ⟨rfl, rfl, rfl, rfl⟩).1 rfl rfl
    rw [h]; rfl
  · exact (parseVCPValue_fallback_amended.2.1 "n/a" ⟨rfl, rfl, rfl, rfl⟩).2 (by decide)

/-! ### Claim C9: the `ddcutil detect` parser -/

/-- The header lines (trimmed lines starting with `Display `) of a
transcript, in order. -/
def headersOf (lines : List String) : List String :=
  (lines.map goTrimSpace).filter (fun t => goHasPrefix t "Display ")

/-- The monitor IDs recorded in a parser state: finished monitors first,
then the in-progress one. -/
def idsOf (st : List Monitor × Option Monitor) : List String :=
  st.1.map Monitor.ID ++ (st.2.map Monitor.ID).toList

theorem applyMfg_ID (line : String) (m : Monitor) : (applyMfg line m).ID = m.ID := by
  simp only [applyMfg]; split_ifs <;> rfl

theorem applyModel_ID (line : String) (m : Monitor) : (applyModel line m).ID = m.ID := by
  simp only [applyModel]; split_ifs <;> rfl

theorem enhanceLinux_ID (env : LinuxEnv) (m : Monitor) :
    (enhanceLinuxMonitorWithCapabilities env m).ID = m.ID := by
  unfold enhanceLinuxMonitorWithCapabilities
  cases h : env.caps m.ID
  · rfl
  · simp only []
    split_ifs <;> rfl

theorem headersOf_cons (l : String) (ls : List String) :
    headersOf (l :: ls) =
      if goHasPrefix (goTrimSpace l) "Display " = true then goTrimSpace l :: headersOf ls
      else headersOf ls := by
  unfold headersOf
  simp [List.filter_cons]

theorem idsOf_step_header (st : List Monitor × Option Monitor) (l n : String)
    (hd : goHasPrefix (goTrimSpace l) "Display " = true)
    (hn : findDisplayNum (goTrimSpace l).toList = some n) :
    idsOf (ddcutilStep st l) = idsOf st ++ [n] := by
  obtain ⟨ms, cur⟩ := st
  unfold ddcutilStep
  simp only [hd, if_true, hn]
  cases cur <;>
    simp [idsOf, applyModel_ID, applyMfg_ID, List.map_append]

theorem idsOf_step_nonheader (st : List Monitor × Option Monitor) (l : String)
    (hd : goHasPrefix (goTrimSpace l) "Display " = false) :
    idsOf (ddcutilStep st l) = idsOf st := by
  obtain ⟨ms, cur⟩ := st
  unfold ddcutilStep
  simp only [hd, Bool.false_eq_true, if_false]
  cases cur <;> simp [idsOf, applyModel_ID, applyMfg_ID]

/-- The line loop appends, for each header whose `Display (\d+)` capture
succeeds, exactly one monitor carrying the captured number as its ID, in
transcript order. -/
theorem ddcutil_foldl_ids :
    ∀ (lines : List String) (st : List Monitor × Option Monitor),
    (∀ h ∈ headersOf lines, (findDisplayNum h.toList).isSome = true) →
    idsOf (lines.foldl ddcutilStep st) =
      idsOf st ++ (headersOf lines).filterMap (fun h => findDisplayNum h.toList) := by
  intro lines
  induction lines with
  | nil => intro st _; simp [headersOf]
  | cons l ls ih =>
    intro st hall
    rw [List.foldl_cons]
    by_cases hd : goHasPrefix (goTrimSpace l) "Display " = true
    · have hmem : goTrimSpace l ∈ headersOf (l :: ls) := by
        rw [headersOf_cons]; simp [hd]
      obtain ⟨n, hn⟩ := Option.isSome_iff_exists.mp (hall _ hmem)
      have hrest : ∀ h ∈ headersOf ls, (findDisplayNum h.toList).isSome = true := by
        intro h hh
        apply hall
        rw [headersOf_cons]
        simp [hd, hh]
      rw [ih (ddcutilStep st l) hrest, idsOf_step_header st l n hd hn, headersOf_cons,
        if_pos hd, List.filterMap_cons, hn]
      simp [List.append_assoc]
    · have hd' : goHasPrefix (goTrimSpace l) "Display " = false := by
        simpa using hd
      have hrest : ∀ h ∈ headersOf ls, (findDisplayNum h.toList).isSome = true := by
        intro h hh
        apply hall
        rw [headersOf_cons]
        simp [hd', hh]
      rw [ih (ddcutilStep st l) hrest, idsOf_step_nonheader st l hd', headersOf_cons,
        if_neg (by simp [hd'])]

/-- Claim C9: a `ddcutil detect` transcript with exactly two `Display N`
header lines parses to exactly two Monitors whose IDs are the two
captured numbers, in transcript order — whatever the capability
enhancement environment does. -/
theorem parseDdcutilDetectOutput_two_displays (env : LinuxEnv) (output : String)
    (h1 h2 n1 n2 : String)
    (hh : headersOf (goSplitNl output) = [h1, h2])
    (hc1 : findDisplayNum h1.toList = some n1)
    (hc2 : findDisplayNum h2.toList = some n2) :
    (parseDdcutilDetectOutput env output).map Monitor.ID = [n1, n2] := by
  unfold parseDdcutilDetectOutput
  have hall : ∀ h ∈ headersOf (goSplitNl output), (findDisplayNum h.toList).isSome = true := by
    rw [hh]
    intro h hm
    rcases List.mem_cons.mp hm with rfl | hm2
    · rw [hc1]; rfl
    · rcases List.mem_cons.mp hm2 with rfl | hm3
      · rw [hc2]; rfl
      · simp at hm3
  have hfold := ddcutil_foldl_ids (goSplitNl output) ([], none) hall
  rw [hh] at hfold
  simp only [List.filterMap_cons, hc1, hc2, List.filterMap_nil] at hfold
  simp only [idsOf, List.map_nil, Option.map_none', Option.toList_none, List.append_nil,
    List.nil_append] at hfold
  simp only [List.map_map]
  have hcongr :
      ∀ (l : List Monitor),
        l.map (Monitor.ID ∘ enhanceLinuxMonitorWithCapabilities env) = l.map Monitor.ID := by
    intro l
    induction l with
    | nil => rfl
    | cons x xs ihx => simp [ihx, enhanceLinux_ID env x]
  rw [hcongr]
  set st := (goSplitNl output).foldl ddcutilStep ([], none) with hst
  cases hcur : st.2 <;> simp [hcur, idsOf] at hfold ⊢ <;> simp [hfold]

/-- Witness for `parseDdcutilDetectOutput_two_displays` on a concrete
two-display transcript. -/
theorem parseDdcutilDetectOutput_two_displays_witness :
    (parseDdcutilDetectOutput
      { onPath := fun _ => false, ddcutilDetect := none, caps := fun _ => none
        getvcp60 := fun _ => none, xrandr := none }
      "Display 1\n   Mfg id: DEL\nDisplay 2\n   Mfg id: GSM").map Monitor.ID = ["1", "2"] :=
  parseDdcutilDetectOutput_two_displays _ _ "Display 1" "Display 2" "1" "2"
    (by decide) rfl rfl

/-! ### Claim C10: the macOS detection path never reaches validation -/

/-- Every error return of `getSystemProfilerDisplays` carries a nil
monitor slice. -/
theorem gsp_error_empty (cmdOut : Option String)
    (unmarshal : String → Option (List (List SPNdrv)))
    (hne : (getSystemProfilerDisplays cmdOut unmarshal).2 ≠ none) :
    (getSystemProfilerDisplays cmdOut unmarshal).1 = [] := by
  unfold getSystemProfilerDisplays at *
  cases cmdOut with
  | none => rfl
  | some out =>
    cases h : unmarshal out with
    | none => simp only [h]
    | some groups =>
      simp only [h] at hne ⊢
      by_cases hl : (groups.flatMap fun ndrvs => ndrvs.filterMap spMonitorOf).length = 0
      · rw [if_pos hl]
      · exact absurd (by rw [if_neg hl]) hne

/-- Every monitor produced by the `system_profiler` inventory has empty
`Inputs` and empty `CurrentInput`. -/
theorem gsp_monitors_empty_inputs (cmdOut : Option String)
    (unmarshal : String → Option (List (List SPNdrv))) :
    ∀ m ∈ (getSystemProfilerDisplays cmdOut unmarshal).1,
      m.Inputs = [] ∧ m.CurrentInput = "" := by
  unfold getSystemProfilerDisplays
  cases cmdOut with
  | none => simp
  | some out =>
    cases h : unmarshal out with
    | none => simp [h]
    | some groups =>
      simp only [h]
      by_cases hl : (groups.flatMap fun ndrvs => ndrvs.filterMap spMonitorOf).length = 0
      · simp [hl]
      · simp only [hl, if_false]
        intro m hm
        simp only [List.mem_flatMap, List.mem_filterMap] at hm
        obtain ⟨ndrvs, _, nd, _, hsp⟩ := hm
        simp only [spMonitorOf] at hsp
        split_ifs at hsp
        · obtain rfl := (Option.some.inj hsp).symm
          exact ⟨rfl, rfl⟩
        · obtain rfl := (Option.some.inj hsp).symm
          exact ⟨rfl, rfl⟩

/-- Claim C10: `detectMacOSMonitors` never invokes
`enhancedDisplayWithValidation` (invocation count 0), always returns a nil
error; on inventory success the monitors are returned unchanged (all with
empty Inputs and CurrentInput), on inventory failure an empty list is
returned. -/
theorem detectMacOSMonitors_no_validation (cmdOut : Option String)
    (unmarshal : String → Option (List (List SPNdrv)))
    (env : MacEnv) (onPath : String → Bool) :
    (detectMacOSMonitors cmdOut unmarshal env onPath).2 = 0 ∧
    (∃ ms, (detectMacOSMonitors cmdOut unmarshal env onPath).1 = .ok ms) ∧
    ((getSystemProfilerDisplays cmdOut unmarshal).2 = none →
      (detectMacOSMonitors cmdOut unmarshal env onPath).1 =
        .ok (getSystemProfilerDisplays cmdOut unmarshal).1 ∧
      ∀ m ∈ (getSystemProfilerDisplays cmdOut unmarshal).1,
        m.Inputs = [] ∧ m.CurrentInput = "") ∧
    ((getSystemProfilerDisplays cmdOut unmarshal).2 ≠ none →
      (detectMacOSMonitors cmdOut unmarshal env onPath).1 = .ok []) := by
  unfold detectMacOSMonitors
  cases hp : (getSystemProfilerDisplays cmdOut unmarshal).2 with
  | none =>
    simp only [hp]
    exact ⟨by trivial, ⟨_, by trivial⟩,
      fun _ => ⟨by trivial, gsp_monitors_empty_inputs cmdOut unmarshal⟩,
      fun hne => absurd rfl hne⟩
  | some e =>
    have hempty : (getSystemProfilerDisplays cmdOut unmarshal).1 = [] :=
      gsp_error_empty cmdOut unmarshal (by rw [hp]; simp)
    simp only [hp, hempty]
    exact ⟨by trivial, ⟨[], by trivial⟩, fun hcontra => absurd hcontra (by simp),
      fun _ => by trivial⟩

/-- Witness for `detectMacOSMonitors_no_validation` on a concrete
one-external-display inventory. -/
theorem detectMacOSMonitors_no_validation_witness :
    (detectMacOSMonitors (some "json")
      (fun _ => some [[⟨"LG HDR 4K", "spdisplays_external", "2", "1e6d"⟩]])
      ⟨fun _ => .error "x", fun _ _ => false, fun _ => none, fun _ => none, fun _ _ => false⟩
      (fun _ => false)).1 =
        .ok [{ ID := "2", Name := "LG HDR 4K", Inputs := [], CurrentInput := "" }] ∧
    (detectMacOSMonitors (some "json")
      (fun _ => some [[⟨"LG HDR 4K", "spdisplays_external", "2", "1e6d"⟩]])
      ⟨fun _ => .error "x", fun _ _ => false, fun _ => none, fun _ => none, fun _ _ => false⟩
      (fun _ => false)).2 = 0 := by
  have h := detectMacOSMonitors_no_validation (some "json")
    (fun _ => some [[⟨"LG HDR 4K", "spdisplays_external", "2", "1e6d"⟩]])
    ⟨fun _ => .error "x", fun _ _ => false, fun _ => none, fun _ => none, fun _ _ => false⟩
    (fun _ => false)
  refine ⟨?_, h.1⟩
  have h3 := (h.2.2.1 rfl).1
  rw [h3]
  rfl

end MonitorSwitch
